import Mathlib

/-!
Shallow embedding of `src/budget_coach.py` (the spending-analysis workflow of
the budget-coach repository) and verification of its specified properties.

Amounts are embedded as exact rationals (`ℚ`); the external text-generation
service is an opaque function `llm : String → String`; the LangGraph run-state
is an explicit record threaded through the step functions; LangGraph's
`messages` channel uses an append reducer, so each step's returned message
list is appended to the log, while every other returned field overwrites.
-/

/-- One digit character, `0 ≤ n ≤ 9`. -/
def digitChar (n : Nat) : Char := Char.ofNat (48 + n)

/-- Decimal digit characters of `n`, most significant first (fuelled). -/
def natDigitsAux : Nat → Nat → List Char
  | 0, _ => []
  | fuel + 1, n =>
    if n < 10 then [digitChar n]
    else natDigitsAux fuel (n / 10) ++ [digitChar (n % 10)]

/-- Decimal string of a natural number. -/
def natToString (n : Nat) : String := ⟨natDigitsAux (n + 1) n⟩

/-- Insert a comma after every third character of a reversed digit list
(working from the least-significant end). -/
def groupRev : List Char → List Char
  | a :: b :: c :: d :: rest => a :: b :: c :: ',' :: groupRev (d :: rest)
  | l => l

/-- Comma-group a digit string in blocks of three from the right, mirroring
the thousands separator of Python `format(x, ",")`. -/
def commaGroup (s : String) : String := ⟨(groupRev s.data.reverse).reverse⟩

/-- Round a rational to the nearest integer, ties to even — the rounding used
when Python formats a float with `.2f`. -/
def roundHalfEven (q : ℚ) : ℤ :=
  if q - ⌊q⌋ < 1 / 2 then ⌊q⌋
  else if q - ⌊q⌋ > 1 / 2 then ⌊q⌋ + 1
  else if ⌊q⌋ % 2 = 0 then ⌊q⌋ else ⌊q⌋ + 1

/-- Function `format_currency` from `budget_coach.py`: the Python
f-string formatting of `amount` with comma grouping and `.2f` precision.
Two fixed decimal places, comma thousands separators, and for a negative
amount the sign sits between the `$` and the digits (Python's convention). -/
def format_currency (amount : ℚ) : String :=
  "$" ++ (if amount < 0 then "-" else "") ++
    commaGroup (natToString ((roundHalfEven (amount * 100)).natAbs / 100)) ++ "." ++
    (if (roundHalfEven (amount * 100)).natAbs % 100 < 10 then "0" else "") ++
    natToString ((roundHalfEven (amount * 100)).natAbs % 100)

/-- The `Transaction` schema from `budget_coach.py` (the `date` timestamp is
abstracted to a `Nat`; it is never read by the workflow). -/
structure Transaction where
  date : Nat
  amount : ℚ
  category : String
  description : String
  merchant : String
deriving DecidableEq, Repr

/-- The `SpendingInsight` schema from `budget_coach.py`. -/
structure SpendingInsight where
  category : String
  total_spent : ℚ
  num_transactions : Nat
  snarky_comment : String
  helpful_suggestion : String
deriving DecidableEq, Repr

/-- The per-category aggregate built by `analyze_transactions`: the value of
`category_spending[category]` — running total, count, and the list that the
code appends every transaction of the category to. -/
structure CatData where
  total : ℚ
  count : Nat
  transactions : List Transaction
deriving DecidableEq, Repr

/-- Process one transaction into the category map (a `String`-keyed
association list in insertion order, mirroring a Python dict): a first-seen
category is appended at the end with an initialized aggregate; otherwise the
existing entry gets the amount added, the count bumped, and the transaction
appended. -/
def updateCat (t : Transaction) : List (String × CatData) → List (String × CatData)
  | [] => [(t.category, ⟨t.amount, 1, [t]⟩)]
  | (c, d) :: rest =>
    if c = t.category then
      (c, ⟨d.total + t.amount, d.count + 1, d.transactions ++ [t]⟩) :: rest
    else
      (c, d) :: updateCat t rest

/-- The grouping loop of `analyze_transactions`: fold the batch, in order,
into the category map. -/
def categorySpending (transactions : List Transaction) : List (String × CatData) :=
  transactions.foldl (fun acc t => updateCat t acc) []

/-- Python `l[-3:]`: the trailing window of at most three elements. -/
def recentItems (l : List Transaction) : List Transaction :=
  l.drop (l.length - 3)

/-- The insight-generation prompt of `analyze_transactions`: encodes the
category, formatted total, count, and the last three transactions. -/
def insightPrompt (category : String) (d : CatData) : String :=
  "You are a passive-aggressive budget coach. Generate a snarky but helpful insight about spending in the "
    ++ category ++ " category.\n\nTotal spent: " ++ format_currency d.total
    ++ "\nNumber of transactions: " ++ natToString d.count
    ++ "\n\nRecent transactions:\n"
    ++ String.intercalate "\n"
        ((recentItems d.transactions).map
          (fun t => "- " ++ format_currency t.amount ++ " at " ++ t.merchant))
    ++ "\n\nMake your response:\n1. Snarky but not mean\n2. Include a helpful suggestion\n3. Use emojis sparingly\n4. Keep it concise (2-3 sentences)\n5. Format all numbers with proper spacing and commas\n6. Do not split numbers across lines\n7. Use proper spacing between sentences"

/-- Function `analyze_transactions` from `budget_coach.py`: group by category, then
one `SpendingInsight` per category map entry; the service reply is stored
verbatim in `snarky_comment` and `helpful_suggestion` is set to `""`. -/
def analyze_transactions (llm : String → String) (transactions : List Transaction) :
    List SpendingInsight :=
  (categorySpending transactions).map
    (fun p => ⟨p.1, p.2.total, p.2.count, llm (insightPrompt p.1 p.2), ""⟩)

/-- A conversation-log entry (LangChain message): a role tag and the text. -/
structure Message where
  role : String
  content : String
deriving DecidableEq, Repr

/-- The `BudgetCoachState` record from `budget_coach.py`: the LangGraph run-state. -/
structure BudgetCoachState where
  messages : List Message
  transactions : List Transaction
  insights : List SpendingInsight
  monthly_budget : ℚ
  current_month_spending : ℚ
deriving DecidableEq, Repr

/-- The run-state at the start of a workflow invocation: caller-supplied
messages, transactions and budget; `insights` and `current_month_spending`
at their schema defaults (`[]` and `0.0`). -/
def initState (messages : List Message) (transactions : List Transaction)
    (monthly_budget : ℚ) : BudgetCoachState :=
  ⟨messages, transactions, [], monthly_budget, 0⟩

/-- The `analyze_transactions` node applied to the run-state: its returned
partial update sets only `insights`. -/
def analyzeNode (llm : String → String) (s : BudgetCoachState) : BudgetCoachState :=
  { s with insights := analyze_transactions llm s.transactions }

/-- The monthly-summary prompt of `generate_monthly_summary`. -/
def summaryPrompt (budget total_spent : ℚ) : String :=
  "You are a passive-aggressive budget coach. Generate a monthly spending summary.\n\nMonthly Budget: "
    ++ format_currency budget ++ "\nTotal Spent: " ++ format_currency total_spent
    ++ "\nRemaining: " ++ format_currency (budget - total_spent)
    ++ "\n\nMake your response:\n1. Start with a snarky observation about overall spending\n2. Include specific category breakdowns\n3. End with a passive-aggressive but helpful tip\n4. Use markdown formatting\n5. Format all numbers with proper spacing and commas\n6. Use proper spacing between sentences\n7. Do not split numbers across lines"

/-- Function `generate_monthly_summary` from `budget_coach.py`: recomputes the total
from `transactions`, writes it to `current_month_spending`, and appends one
AI message with the generated summary. -/
def generate_monthly_summary (llm : String → String) (s : BudgetCoachState) :
    BudgetCoachState :=
  { s with
      current_month_spending := (s.transactions.map (·.amount)).sum,
      messages := s.messages ++
        [⟨"ai", llm (summaryPrompt s.monthly_budget ((s.transactions.map (·.amount)).sum))⟩] }

/-- The two possible results of the conditional edge after the summary node. -/
inductive AlertDecision where
  | send_alert
  | «END»
deriving DecidableEq, Repr

/-- Function `should_send_alert` from `budget_coach.py`: alert iff
`current_month_spending > monthly_budget * 0.8`. -/
def should_send_alert (s : BudgetCoachState) : AlertDecision :=
  if s.current_month_spending > s.monthly_budget * (0.8 : ℚ) then .send_alert else .«END»

/-- The spending-alert prompt of `send_spending_alert`. -/
def alertPrompt (budget total_spent : ℚ) : String :=
  "You are a passive-aggressive budget coach. Generate an alert about excessive spending.\n\nMonthly Budget: "
    ++ format_currency budget ++ "\nTotal Spent: " ++ format_currency total_spent
    ++ "\nRemaining: " ++ format_currency (budget - total_spent)
    ++ "\n\nMake your response:\n1. Start with a dramatic observation about spending\n2. Include specific examples of \"interesting\" purchases\n3. End with a sarcastic but practical suggestion\n4. Use emojis for extra passive-aggressive effect\n5. Format all numbers with proper spacing and commas\n6. Use proper spacing between sentences\n7. Do not split numbers across lines"

/-- Function `send_spending_alert` from `budget_coach.py`: reads the committed
`current_month_spending` and appends one AI message with the alert. -/
def send_spending_alert (llm : String → String) (s : BudgetCoachState) :
    BudgetCoachState :=
  { s with
      messages := s.messages ++
        [⟨"ai", llm (alertPrompt s.monthly_budget s.current_month_spending)⟩] }

/-- The compiled `budget_coach` graph: START → analyze_transactions →
generate_summary → (should_send_alert ? send_alert : END) → END. -/
def budget_coach (llm : String → String) (s : BudgetCoachState) : BudgetCoachState :=
  let s1 := analyzeNode llm s
  let s2 := generate_monthly_summary llm s1
  match should_send_alert s2 with
  | .send_alert => send_spending_alert llm s2
  | .«END» => s2

/-- Python `str.replace`: scan left to right, replacing each non-overlapping
occurrence of the (non-empty) pattern; fuelled by the input length. -/
def replaceAux (pat repl : List Char) : Nat → List Char → List Char
  | 0, l => l
  | _ + 1, [] => []
  | fuel + 1, c :: rest =>
    if pat.isEmpty then c :: rest
    else if pat.isPrefixOf (c :: rest) then
      repl ++ replaceAux pat repl fuel ((c :: rest).drop pat.length)
    else
      c :: replaceAux pat repl fuel rest

/-- Python `s.replace(pat, repl)` on strings. -/
def strReplace (s pat repl : String) : String :=
  ⟨replaceAux pat.data repl.data s.data.length s.data⟩

/-- The post-processing of `BudgetCoach.get_response`, applied to the last
generated message before returning it:
`response.replace("$", " $").replace("$ ", "$").replace(".", ". ").replace("!", "! ").replace("?", "? ")`. -/
def postProcess (response : String) : String :=
  strReplace (strReplace (strReplace (strReplace (strReplace response "$" " $")
    "$ " "$") "." ". ") "!" "! ") "?" "? "

/-- The system message of `BudgetCoach.get_response`. -/
def getResponseSystemMessage : String :=
  "You are a passive-aggressive budget coach. Your responses should be:\n1. Snarky but not mean\n2. Include specific details about spending\n3. End with a helpful suggestion\n4. Use emojis sparingly\n5. Keep it concise\n6. Format numbers with proper spacing and commas (e.g., \"$1,234.56\" not \"$1234.56\")\n7. Use proper spacing between sentences and after punctuation\n8. Use markdown formatting for emphasis where appropriate\n\nBase your response on the user\x27s transactions and their question."

/-- Method `BudgetCoach.get_response`: run the graph on a state seeded with the
system and user messages, the stored transactions and budget, then return
the post-processed content of the last resulting message (or the canned
fallback when there are no messages). -/
def get_response (llm : String → String) (transactions : List Transaction)
    (monthly_budget : ℚ) (prompt : String) : String :=
  let result := budget_coach llm
    (initState [⟨"system", getResponseSystemMessage⟩, ⟨"user", prompt⟩]
      transactions monthly_budget)
  match result.messages.getLast? with
  | some m => postProcess m.content
  | none => "I\x27m currently analyzing your questionable financial decisions... 🤔"

/-- A "Dining" transaction with the given timestamp and amount, for the
end-to-end scenarios of the specification. -/
def diningTx (n : Nat) (a : ℚ) : Transaction :=
  ⟨n, a, "Dining", "meal", "Cafe"⟩

/-- Scenario B batch: three Dining transactions of 10, 20 and 30. -/
def txsB : List Transaction :=
  [diningTx 1 10, diningTx 2 20, diningTx 3 30]

/-- A four-transaction Dining batch (used to exercise the recent-items
buffer beyond three entries). -/
def txs4 : List Transaction :=
  [diningTx 1 10, diningTx 2 20, diningTx 3 30, diningTx 4 40]

/-- The keys of a category map, in order. -/
def keysOf (l : List (String × CatData)) : List String :=
  l.map Prod.fst

/-- The transactions of one category, in input order (used to state what the
aggregate buffer holds). -/
def catOf (c : String) (transactions : List Transaction) : List Transaction :=
  transactions.filter (fun t => t.category == c)

/-- Extending an aggregate with one transaction (the always-executed part of
the grouping loop body). -/
def extendCat (d : CatData) (t : Transaction) : CatData :=
  ⟨d.total + t.amount, d.count + 1, d.transactions ++ [t]⟩

theorem roundHalfEven_intCast (n : ℤ) : roundHalfEven ((n : ℤ) : ℚ) = n := by
  simp [roundHalfEven]

theorem format_currency_pos_example : format_currency 1234.5 = "$1,234.50" := by
  have e : (1234.5 : ℚ) * 100 = ((123450 : ℤ) : ℚ) := by norm_num
  simp only [format_currency, e, roundHalfEven_intCast]
  rw [if_neg (by norm_num : ¬ (1234.5 : ℚ) < 0)]
  decide

theorem format_currency_zero_example : format_currency 0 = "$0.00" := by
  have e : (0 : ℚ) * 100 = ((0 : ℤ) : ℚ) := by norm_num
  simp only [format_currency, e, roundHalfEven_intCast]
  rw [if_neg (by norm_num : ¬ (0 : ℚ) < 0)]
  decide

theorem format_currency_neg_example : format_currency (-12.3) = "$-12.30" := by
  have e : (-12.3 : ℚ) * 100 = ((-1230 : ℤ) : ℚ) := by norm_num
  simp only [format_currency, e, roundHalfEven_intCast]
  rw [if_pos (by norm_num : (-12.3 : ℚ) < 0)]
  decide

theorem sum_totals_updateCat (t : Transaction) (acc : List (String × CatData)) :
    ((updateCat t acc).map (fun p => p.2.total)).sum
      = ((acc.map (fun p => p.2.total)).sum) + t.amount := by
  induction acc with
  | nil => simp [updateCat]
  | cons hd tl ih =>
    obtain ⟨c, d⟩ := hd
    by_cases h : c = t.category
    · simp only [updateCat, if_pos h, List.map_cons, List.sum_cons]
      ring
    · simp only [updateCat, if_neg h, List.map_cons, List.sum_cons, ih]
      ring

theorem sum_totals_foldl (ts : List Transaction) :
    ∀ acc, ((ts.foldl (fun acc t => updateCat t acc) acc).map (fun p => p.2.total)).sum
      = ((acc.map (fun p => p.2.total)).sum) + (ts.map (·.amount)).sum := by
  induction ts with
  | nil => simp
  | cons t ts ih =>
    intro acc
    simp only [List.foldl_cons, ih, sum_totals_updateCat, List.map_cons, List.sum_cons]
    ring

theorem keysOf_updateCat (t : Transaction) (acc : List (String × CatData)) :
    keysOf (updateCat t acc) =
      if t.category ∈ keysOf acc then keysOf acc else keysOf acc ++ [t.category] := by
  induction acc with
  | nil => simp [updateCat, keysOf]
  | cons hd tl ih =>
    obtain ⟨c, d⟩ := hd
    by_cases h : c = t.category
    · simp [updateCat, h, keysOf]
    · have hc : ¬ t.category = c := fun e => h e.symm
      simp only [updateCat, if_neg h, keysOf, List.map_cons] at ih ⊢
      simp only [List.mem_cons, hc, false_or]
      by_cases hm : t.category ∈ List.map Prod.fst tl
      · simp [ih, hm]
      · simp [ih, hm]

theorem mem_keysOf_updateCat (t : Transaction) (acc : List (String × CatData)) (c : String) :
    c ∈ keysOf (updateCat t acc) ↔ c ∈ keysOf acc ∨ c = t.category := by
  rw [keysOf_updateCat]
  by_cases hm : t.category ∈ keysOf acc
  · simp only [if_pos hm]
    constructor
    · exact fun h => Or.inl h
    · rintro (h | rfl)
      · exact h
      · exact hm
  · simp [if_neg hm]

theorem nodup_keysOf_updateCat (t : Transaction) (acc : List (String × CatData))
    (h : (keysOf acc).Nodup) : (keysOf (updateCat t acc)).Nodup := by
  rw [keysOf_updateCat]
  by_cases hm : t.category ∈ keysOf acc
  · simpa [if_pos hm] using h
  · simp only [if_neg hm]
    simpa [List.nodup_append] using ⟨h, hm⟩

theorem keysOf_foldl_spec (ts : List Transaction) :
    ∀ acc, (keysOf acc).Nodup →
      (keysOf (ts.foldl (fun acc t => updateCat t acc) acc)).Nodup ∧
      (∀ c, c ∈ keysOf (ts.foldl (fun acc t => updateCat t acc) acc) ↔
        c ∈ keysOf acc ∨ c ∈ ts.map (·.category)) := by
  induction ts with
  | nil => intro acc h; simpa using h
  | cons t ts ih =>
    intro acc h
    obtain ⟨ihn, ihm⟩ := ih (updateCat t acc) (nodup_keysOf_updateCat t acc h)
    refine ⟨ihn, fun c => ?_⟩
    rw [List.foldl_cons] at *
    rw [ihm c, mem_keysOf_updateCat]
    simp only [List.map_cons, List.mem_cons]
    tauto

theorem analyze_length_eq_dedup (llm : String → String) (ts : List Transaction) :
    (analyze_transactions llm ts).length = ((ts.map (fun t => t.category)).dedup).length := by
  obtain ⟨hn, hm⟩ := keysOf_foldl_spec ts [] (by simp [keysOf])
  have hfin : (keysOf (categorySpending ts)).toFinset
      = ((ts.map (fun t => t.category)).dedup).toFinset := by
    ext c
    simp only [List.mem_toFinset, List.mem_dedup]
    rw [show categorySpending ts = ts.foldl (fun acc t => updateCat t acc) [] from rfl, hm c]
    simp [keysOf]
  have h1 : (keysOf (categorySpending ts)).toFinset.card = (keysOf (categorySpending ts)).length :=
    List.toFinset_card_of_nodup hn
  have h2 : ((ts.map (fun t => t.category)).dedup).toFinset.card
      = ((ts.map (fun t => t.category)).dedup).length :=
    List.toFinset_card_of_nodup (List.nodup_dedup _)
  have h3 : (analyze_transactions llm ts).length = (keysOf (categorySpending ts)).length := by
    simp [analyze_transactions, keysOf]
  rw [h3, ← h1, hfin, h2]

/-- C1: for every transaction batch (and any behaviour of the generation
service), the insights produced by `analyze_transactions` conserve the total
— the sum of the insights' `total_spent` equals the sum of the batch's
amounts — and there is exactly one insight per distinct category label in
the batch. -/
theorem C1_analyze_conserves_total_and_category_count
    (llm : String → String) (ts : List Transaction) :
    ((analyze_transactions llm ts).map (fun i => i.total_spent)).sum
        = (ts.map (fun t => t.amount)).sum ∧
      (analyze_transactions llm ts).length
        = ((ts.map (fun t => t.category)).dedup).length := by
  constructor
  · have h := sum_totals_foldl ts []
    simpa [analyze_transactions, categorySpending, List.map_map, Function.comp] using h
  · exact analyze_length_eq_dedup llm ts

/-- C2: the alert decision is a pure function of `(current_month_spending,
monthly_budget)`; it selects the alert branch iff
`current_month_spending > monthly_budget * 0.8`; at the exact boundary it
selects termination; and with a zero budget any positive spend alerts. -/
theorem C2_alert_decision_threshold (s : BudgetCoachState) :
    (should_send_alert s = .send_alert
        ↔ s.current_month_spending > s.monthly_budget * (0.8 : ℚ)) ∧
      (∀ s' : BudgetCoachState,
        s'.current_month_spending = s.current_month_spending →
        s'.monthly_budget = s.monthly_budget →
        should_send_alert s' = should_send_alert s) ∧
      (s.current_month_spending = s.monthly_budget * (0.8 : ℚ) →
        should_send_alert s = .«END») ∧
      (s.monthly_budget = 0 → 0 < s.current_month_spending →
        should_send_alert s = .send_alert) := by
  refine ⟨?_, ?_, ?_, ?_⟩
  · by_cases h : s.current_month_spending > s.monthly_budget * (0.8 : ℚ) <;>
      simp [should_send_alert, h]
  · intro s' h1 h2
    simp [should_send_alert, h1, h2]
  · intro h
    simp [should_send_alert, h]
  · intro hb hs
    have : s.current_month_spending > s.monthly_budget * (0.8 : ℚ) := by
      rw [hb]; simpa using hs
    simp [should_send_alert, this]

theorem C2_alert_decision_witness :
    should_send_alert ⟨[], [], [], 50, 40⟩ = .«END» ∧
      should_send_alert ⟨[], [], [], 0, 1⟩ = .send_alert :=
  ⟨(C2_alert_decision_threshold ⟨[], [], [], 50, 40⟩).2.2.1 (by norm_num),
   (C2_alert_decision_threshold ⟨[], [], [], 0, 1⟩).2.2.2 rfl (by norm_num)⟩

/-- C5: the summary step commits `current_month_spending` to the exact sum
of the batch's amounts; before it runs (initially, and after the analyze
step) the field holds the stale initial value 0; and the alert decision in
the workflow is evaluated on exactly that committed sum. -/
theorem C5_summary_commits_spending (llm : String → String) (messages : List Message)
    (ts : List Transaction) (budget : ℚ) :
    (initState messages ts budget).current_month_spending = 0 ∧
      (analyzeNode llm (initState messages ts budget)).current_month_spending = 0 ∧
      (generate_monthly_summary llm
          (analyzeNode llm (initState messages ts budget))).current_month_spending
        = (ts.map (fun t => t.amount)).sum ∧
      should_send_alert
          (generate_monthly_summary llm (analyzeNode llm (initState messages ts budget)))
        = (if (ts.map (fun t => t.amount)).sum > budget * (0.8 : ℚ)
            then AlertDecision.send_alert else AlertDecision.«END») := by
  refine ⟨rfl, rfl, rfl, ?_⟩
  simp [should_send_alert, generate_monthly_summary, analyzeNode, initState]

/-- C8: no workflow step writes `transactions` or `monthly_budget`; the
analyze node updates only `insights`, the summary node only
`current_month_spending` and the message log, the alert node only the
message log, and a whole run leaves `transactions` and `monthly_budget` as
initialized. -/
theorem C8_frame_conditions (llm : String → String) (s : BudgetCoachState) :
    ((analyzeNode llm s).transactions = s.transactions ∧
      (analyzeNode llm s).monthly_budget = s.monthly_budget ∧
      (analyzeNode llm s).current_month_spending = s.current_month_spending ∧
      (analyzeNode llm s).messages = s.messages) ∧
    ((generate_monthly_summary llm s).transactions = s.transactions ∧
      (generate_monthly_summary llm s).monthly_budget = s.monthly_budget ∧
      (generate_monthly_summary llm s).insights = s.insights ∧
      (∃ m, (generate_monthly_summary llm s).messages = s.messages ++ [m])) ∧
    ((send_spending_alert llm s).transactions = s.transactions ∧
      (send_spending_alert llm s).monthly_budget = s.monthly_budget ∧
      (send_spending_alert llm s).insights = s.insights ∧
      (send_spending_alert llm s).current_month_spending = s.current_month_spending ∧
      (∃ m, (send_spending_alert llm s).messages = s.messages ++ [m])) ∧
    ((budget_coach llm s).transactions = s.transactions ∧
      (budget_coach llm s).monthly_budget = s.monthly_budget) := by
  refine ⟨⟨rfl, rfl, rfl, rfl⟩, ⟨rfl, rfl, rfl, ⟨_, rfl⟩⟩, ⟨rfl, rfl, rfl, rfl, ⟨_, rfl⟩⟩, ?_⟩
  simp only [budget_coach]
  cases h : should_send_alert (generate_monthly_summary llm (analyzeNode llm s)) <;>
    simp [h, send_spending_alert, generate_monthly_summary, analyzeNode]

/-- C10: every insight produced by `analyze_transactions` has an empty
`helpful_suggestion`, for every batch and every behaviour of the generation
service; only `snarky_comment` receives the generated text, stored
verbatim as the value of the service on the insight prompt. -/
theorem C10_helpful_suggestion_always_empty (llm : String → String)
    (ts : List Transaction) (i : SpendingInsight)
    (hi : i ∈ analyze_transactions llm ts) :
    i.helpful_suggestion = "" ∧
      ∃ p ∈ categorySpending ts, i.snarky_comment = llm (insightPrompt p.1 p.2) := by
  simp only [analyze_transactions, List.mem_map] at hi
  obtain ⟨p, hp, rfl⟩ := hi
  exact ⟨rfl, ⟨p, hp, rfl⟩⟩

/-- C6: scenario B — three Dining transactions of 10, 20 and 30 with
budget 50: the committed spending is 60, which exceeds 0.8 · 50 = 40, so
the alert node runs and the final log is exactly the summary entry followed
by the alert entry. -/
theorem C6_scenario_B_alert_after_summary (llm : String → String) :
    (budget_coach llm (initState [] txsB 50)).current_month_spending = 60 ∧
      (60 : ℚ) > 50 * (0.8 : ℚ) ∧
      (budget_coach llm (initState [] txsB 50)).messages
        = [⟨"ai", llm (summaryPrompt 50 60)⟩, ⟨"ai", llm (alertPrompt 50 60)⟩] := by
  have hsum : ((txsB.map (fun t => t.amount)).sum : ℚ) = 60 := by
    simp [txsB, diningTx]
    norm_num
  refine ⟨?_, by norm_num, ?_⟩ <;>
  · simp only [budget_coach, should_send_alert, generate_monthly_summary,
      analyzeNode, initState, hsum]
    norm_num [send_spending_alert]

/-- C7: scenario C — the empty batch with budget 100 runs to the terminal
state: no insights, committed spending 0, no alert, and the log gains only
the summary entry. -/
theorem C7_scenario_C_empty_batch (llm : String → String) (messages : List Message) :
    (budget_coach llm (initState messages [] 100)).insights = [] ∧
      (budget_coach llm (initState messages [] 100)).current_month_spending = 0 ∧
      (budget_coach llm (initState messages [] 100)).messages
        = messages ++ [⟨"ai", llm (summaryPrompt 100 0)⟩] := by
  refine ⟨?_, ?_, ?_⟩ <;>
  · simp only [budget_coach, should_send_alert, generate_monthly_summary, analyzeNode,
      initState, analyze_transactions, categorySpending, List.foldl_nil, List.map_nil,
      List.sum_nil]
    norm_num [send_spending_alert]

/-- C4 counterexample: the formatter renders −12.3 as `"$-12.30"` — the
minus sign sits between the currency symbol and the digits — not as the
claimed `"-$12.30"` with the symbol adjacent to the digits. -/
theorem C4_counterexample_negative_convention :
    format_currency (-12.3) ≠ "-$12.30" ∧ format_currency (-12.3) = "$-12.30" := by
  rw [format_currency_neg_example]
  exact ⟨by decide, rfl⟩

/-- C4 amended: `format_currency` satisfies `format(1234.5) = "$1,234.50"`
and `format(0) = "$0.00"`, with fixed two decimal places and comma
thousands separators; the single negative convention is Python's —
`format(-12.3) = "$-12.30"`, the sign placed between the symbol and the
digits. -/
theorem C4_currency_formatting :
    format_currency 1234.5 = "$1,234.50" ∧ format_currency 0 = "$0.00" ∧
      format_currency (-12.3) = "$-12.30" :=
  ⟨format_currency_pos_example, format_currency_zero_example, format_currency_neg_example⟩

theorem lookup_updateCat_self (t : Transaction) (acc : List (String × CatData)) :
    List.lookup t.category (updateCat t acc)
      = some (extendCat ((List.lookup t.category acc).getD ⟨0, 0, []⟩) t) := by
  induction acc with
  | nil => simp [updateCat, List.lookup, extendCat]
  | cons hd tl ih =>
    obtain ⟨c, d⟩ := hd
    by_cases h : c = t.category
    · subst h
      simp [updateCat, List.lookup, extendCat]
    · have hb : (t.category == c) = false := beq_eq_false_iff_ne.mpr (fun e => h e.symm)
      simp only [updateCat, if_neg h, List.lookup, hb, ih]

theorem lookup_updateCat_ne (t : Transaction) (acc : List (String × CatData))
    (c : String) (h : c ≠ t.category) :
    List.lookup c (updateCat t acc) = List.lookup c acc := by
  induction acc with
  | nil =>
    have hb : (c == t.category) = false := beq_eq_false_iff_ne.mpr h
    simp [updateCat, List.lookup, hb]
  | cons hd tl ih =>
    obtain ⟨k, d⟩ := hd
    by_cases h' : k = t.category
    · have hb : (c == k) = false := beq_eq_false_iff_ne.mpr (fun e => h (e.trans h'))
      simp [updateCat, if_pos h', List.lookup, hb]
    · by_cases hc : c = k
      · subst hc
        simp [updateCat, if_neg h', List.lookup]
      · have hb : (c == k) = false := beq_eq_false_iff_ne.mpr hc
        simp [updateCat, if_neg h', List.lookup, hb, ih]

theorem categorySpending_concat (ts : List Transaction) (t : Transaction) :
    categorySpending (ts ++ [t]) = updateCat t (categorySpending ts) := by
  simp [categorySpending, List.foldl_append]

theorem catOf_concat (c : String) (ts : List Transaction) (t : Transaction) :
    catOf c (ts ++ [t]) = catOf c ts ++ (if t.category == c then [t] else []) := by
  simp only [catOf, List.filter_append, List.filter_cons, List.filter_nil]

theorem lookup_categorySpending (c : String) (ts : List Transaction) :
    List.lookup c (categorySpending ts) =
      if catOf c ts = [] then none
      else some ⟨((catOf c ts).map (fun t => t.amount)).sum, (catOf c ts).length,
        catOf c ts⟩ := by
  induction ts using List.reverseRecOn with
  | nil => simp [categorySpending, catOf, List.lookup]
  | append_singleton ts t ih =>
    rw [categorySpending_concat, catOf_concat]
    by_cases hct : t.category = c
    · subst hct
      rw [lookup_updateCat_self, ih]
      by_cases he : catOf t.category ts = []
      · simp [he, extendCat]
      · simp [he, extendCat]
    · rw [lookup_updateCat_ne t _ c (fun e => hct e.symm), ih]
      have hb : (t.category == c) = false := beq_eq_false_iff_ne.mpr hct
      simp [hb]

/-- C3 counterexample: on a batch of four Dining transactions the
aggregate's buffer holds all four transactions — its length is 4, not
`min 3 4`: the code appends every transaction to
`category_spending[cat]["transactions"]` and never drops the oldest. -/
theorem C3_counterexample_buffer_not_bounded :
    (categorySpending txs4).map (fun p => p.2.transactions.length) = [4] ∧
      ¬ (4 = min 3 4) := by
  constructor
  · simp [categorySpending, txs4, diningTx, updateCat]
  · decide

/-- C3 amended: the aggregate's transaction buffer retains the FULL history
of the category in input order (`catOf`), so its length equals the
transaction count; only the prompt's recent-transactions listing is the
bounded trailing window `recentItems` — the chronologically-last
`min 3 count` transactions, a suffix of the buffer in input order. -/
theorem C3_full_history_with_prompt_window (ts : List Transaction) (c : String)
    (d : CatData) (h : List.lookup c (categorySpending ts) = some d) :
    d.transactions = catOf c ts ∧
      d.count = d.transactions.length ∧
      recentItems d.transactions = d.transactions.drop (d.transactions.length - 3) ∧
      (recentItems d.transactions).length = min 3 d.count ∧
      recentItems d.transactions <:+ d.transactions := by
  rw [lookup_categorySpending] at h
  by_cases he : catOf c ts = []
  · simp [he] at h
  · rw [if_neg he, Option.some_inj] at h
    subst h
    refine ⟨rfl, rfl, rfl, ?_, List.drop_suffix _ _⟩
    simp only [recentItems, List.length_drop]
    omega

theorem C3_full_history_witness :
    (CatData.mk 100 4 txs4).transactions = catOf "Dining" txs4 ∧
      (CatData.mk 100 4 txs4).count = (CatData.mk 100 4 txs4).transactions.length ∧
      recentItems (CatData.mk 100 4 txs4).transactions
        = (CatData.mk 100 4 txs4).transactions.drop
            ((CatData.mk 100 4 txs4).transactions.length - 3) ∧
      (recentItems (CatData.mk 100 4 txs4).transactions).length
        = min 3 (CatData.mk 100 4 txs4).count ∧
      recentItems (CatData.mk 100 4 txs4).transactions
        <:+ (CatData.mk 100 4 txs4).transactions :=
  C3_full_history_with_prompt_window txs4 "Dining" ⟨100, 4, txs4⟩
    (by
      simp [categorySpending, txs4, diningTx, updateCat, List.lookup]
      norm_num)

/-- C9: the post-processing of `get_response` does NOT preserve the currency
convention: when the generated reply is the perfectly formatted
`"$1,234.56"`, the returned string is `" $1,234. 56"` — the
`replace(".", ". ")` pass inserts a space after the decimal point, splitting
the two cent digits off, and the `replace("$", " $")` pass prepends a space
before the symbol. -/
theorem C9_postprocessing_breaks_currency :
    get_response (fun _ => "$1,234.56") [] 100 "How is my spending" = " $1,234. 56" ∧
      postProcess "$1,234.56" = " $1,234. 56" ∧
      " $1,234. 56" ≠ "$1,234.56" := by
  refine ⟨?_, by decide, by decide⟩
  simp only [get_response, budget_coach, should_send_alert, generate_monthly_summary,
    analyzeNode, initState, List.map_nil, List.sum_nil]
  norm_num [send_spending_alert, List.getLast?_concat]
  decide

theorem C10_helpful_suggestion_witness :
    (SpendingInsight.mk "Dining" 10 1 "generated" "").helpful_suggestion = "" :=
  (C10_helpful_suggestion_always_empty (fun _ => "generated") [diningTx 1 10]
    ⟨"Dining", 10, 1, "generated", ""⟩
    (by simp [analyze_transactions, categorySpending, updateCat, diningTx])).1
